import Mathlib

/-!
Shallow embedding of the ncaptura capture/recording orchestration subsystem
(src/capture/{command_utils,output,state,windows,recording,screenshot}.rs).

External effects (process spawning, signal delivery, filesystem, clock) are
modelled as explicit oracle values carried in environment records; every pure
computation of the Rust source (JSON field extraction, defaulting, sorting,
argument construction, control flow around effect outcomes) is translated
directly.
-/

namespace NCaptura

/-- Model of a serde_json value. Numbers are modelled as integers: the claims
under study only exercise integer-valued JSON numbers. -/
inductive Json where
  | null : Json
  | bool : Bool → Json
  | num : Int → Json
  | str : String → Json
  | arr : List Json → Json
  | obj : List (String × Json) → Json
deriving Repr

/-- serde_json Value::get with a string key: member lookup on an object,
None on every other value. -/
def Json.get (v : Json) (key : String) : Option Json :=
  match v with
  | .obj fields => fields.lookup key
  | _ => none

/-- serde_json Value::as_u64: Some exactly for an integer in u64 range. -/
def Json.as_u64 : Json → Option Nat
  | .num n => if 0 ≤ n ∧ n < 2 ^ 64 then some n.toNat else none
  | _ => none

/-- serde_json Value::as_str. -/
def Json.as_str : Json → Option String
  | .str s => some s
  | _ => none

/-- serde_json Value::as_bool. -/
def Json.as_bool : Json → Option Bool
  | .bool b => some b
  | _ => none

/-- serde_json Value::pointer at the fixed path /Ok/FocusedOutput/name used by
focused_output_name. -/
def Json.pointerOkFocusedOutputName (v : Json) : Option Json :=
  ((v.get ("Ok")).bind (fun w => w.get ("FocusedOutput"))).bind
    (fun w => w.get ("name"))

/-- Captured outcome of running one external command to completion:
whether the program could be launched at all, whether its exit status was
success, its stdout decoded as UTF-8 (none models invalid UTF-8), its stderr
text, and the display rendering of its exit status. -/
structure ToolOutput where
  launched : Bool
  exitOk : Bool
  stdoutUtf8 : Option String
  stderr : String
  statusDisplay : String
deriving Repr, DecidableEq

/-- Executable model of str::trim: drops leading and trailing whitespace
characters from the character list (Lean's Char.isWhitespace set; the full
Unicode White_Space set is not modelled). -/
def trimString (s : String) : String :=
  String.mk
    (((s.data.dropWhile Char.isWhitespace).reverse.dropWhile
      Char.isWhitespace).reverse)

/-- command_utils::run_command: launch failure is a context-labelled error,
non-zero exit reports the trimmed stderr if non-empty, otherwise the exit
status. -/
def run_command (o : ToolOutput) (contextMessage : String) : Except String Unit :=
  if ¬ o.launched then .error (contextMessage ++ ": 无法启动命令")
  else if o.exitOk then .ok ()
  else
    let se := trimString o.stderr
    if se.data.isEmpty then .error (contextMessage ++ ": 退出码 " ++ o.statusDisplay)
    else .error (contextMessage ++ ": " ++ se)

/-- Error message of the slurp launch-failure bail in pick_region_geometry. -/
def slurpLaunchFailedMsg : String := "无法启动 slurp，请确认已安装"

/-- Error message of the non-zero-exit bail in pick_region_geometry: the
selection-cancelled outcome. -/
def selectionCancelledMsg : String := "区域选择已取消或 slurp 执行失败"

/-- Error message of the invalid-UTF-8 bail in pick_region_geometry. -/
def slurpNotTextMsg : String := "slurp 输出不是有效文本"

/-- Error message of the empty-trimmed-stdout bail in pick_region_geometry. -/
def emptyGeometryMsg : String := "未获取到区域坐标"

/-- command_utils::pick_region_geometry: runs slurp; non-zero exit bails with
the cancellation message, invalid UTF-8 bails, a whitespace-only stdout bails
with the empty-geometry message, otherwise the trimmed stdout is returned. -/
def pick_region_geometry (o : ToolOutput) : Except String String :=
  if ¬ o.launched then .error slurpLaunchFailedMsg
  else if ¬ o.exitOk then .error selectionCancelledMsg
  else
    match o.stdoutUtf8 with
    | none => .error slurpNotTextMsg
    | some s =>
      let geometry := trimString s
      if geometry.data.isEmpty then .error emptyGeometryMsg
      else .ok geometry

/-- command_utils::default_system_mix_audio_device: every failure (launch,
non-zero exit, invalid UTF-8, empty trimmed stdout) collapses to none;
success appends the .monitor suffix to the trimmed sink name. -/
def default_system_mix_audio_device (o : ToolOutput) : Option String :=
  if ¬ o.launched then none
  else if ¬ o.exitOk then none
  else
    match o.stdoutUtf8 with
    | none => none
    | some s =>
      let sinkName := trimString s
      if sinkName.data.isEmpty then none
      else some (sinkName ++ ".monitor")

/-- capture::WindowInfo. -/
structure WindowInfo where
  id : Nat
  title : String
  app_id : String
  workspace_id : Nat
  is_focused : Bool
deriving Repr, DecidableEq

/-- The composite sort key of windows::list_windows, in the lexicographic
order Rust gives tuples: (!is_focused, workspace_id, title). -/
def windowKey (w : WindowInfo) : Lex (Bool × Lex (Nat × String)) :=
  toLex ((!w.is_focused), toLex ((w.workspace_id), (w.title)))

/-- Boolean comparison used to sort windows, mirroring
sort_by_key with key (!is_focused, workspace_id, title). -/
def windowLe (a b : WindowInfo) : Bool :=
  decide (windowKey a ≤ windowKey b)

/-- Extraction of one window entry in the list_windows loop: an entry whose
id field is absent or not a u64 is skipped (none); otherwise the remaining
fields default to "(untitled)", "unknown", 0 and false when absent or of the
wrong type. -/
def parseWindow (item : Json) : Option WindowInfo :=
  match (item.get ("id")).bind Json.as_u64 with
  | none => none
  | some wid =>
    some (WindowInfo.mk wid
      (((item.get ("title")).bind Json.as_str).getD ("(untitled)"))
      (((item.get ("app_id")).bind Json.as_str).getD ("unknown"))
      (((item.get ("workspace_id")).bind Json.as_u64).getD 0)
      (((item.get ("is_focused")).bind Json.as_bool).getD false))

/-- The extraction loop of list_windows over the parsed JSON array, in input
order, skipping entries without an id. -/
def parseWindows (items : List Json) : List WindowInfo :=
  items.filterMap parseWindow

/-- The sort step of list_windows (Rust sort_by_key is a stable merge sort on
the composite key). -/
def sortWindows (ws : List WindowInfo) : List WindowInfo :=
  ws.mergeSort windowLe

/-- Outcome of one compositor IPC invocation: launch success, exit status,
UTF-8 validity of stdout, and the JSON parse of the trimmed stdout (none
models a parse failure). -/
structure IpcEnv where
  launched : Bool
  exitOk : Bool
  utf8Ok : Bool
  json : Option Json
deriving Repr

/-- windows::list_windows: runs the niri window-listing IPC, parses a JSON
array, extracts entries with defaults, and sorts by the composite key. -/
def list_windows (env : IpcEnv) : Except String (List WindowInfo) :=
  if ¬ env.launched then .error ("无法调用 niri msg windows，请确认正在 niri 会话中")
  else if ¬ env.exitOk then .error ("niri msg windows 执行失败")
  else if ¬ env.utf8Ok then .error ("niri windows JSON 输出不是 UTF-8")
  else
    match env.json with
    | some (Json.arr items) => .ok (sortWindows (parseWindows items))
    | some _ => .error ("niri windows JSON 解析失败")
    | none => .error ("niri windows JSON 解析失败")

/-- Error message of the not-found bail in focused_output_name. -/
def outputNameNotFoundMsg : String := "未从 niri focused-output 返回中找到输出名称"

/-- windows::focused_output_name: runs the niri focused-output IPC; accepts a
flat name member first, then the nested /Ok/FocusedOutput/name path, and
fails with the not-found message when neither yields a string. -/
def focused_output_name (env : IpcEnv) : Except String String :=
  if ¬ env.launched then .error ("无法调用 niri msg，请确认正在 niri 会话中")
  else if ¬ env.exitOk then .error ("niri msg focused-output 执行失败")
  else if ¬ env.utf8Ok then .error ("niri JSON 输出不是 UTF-8")
  else
    match env.json with
    | none => .error ("niri JSON 解析失败")
    | some data =>
      match (data.get ("name")).bind Json.as_str with
      | some name => .ok name
      | none =>
        match data.pointerOkFocusedOutputName.bind Json.as_str with
        | some name => .ok name
        | none => .error outputNameNotFoundMsg

/-- Local wall-clock time; nanos is the sub-second component, which the
%Y%m%d-%H%M%S format string does not render. -/
structure Timestamp where
  year : Nat
  month : Nat
  day : Nat
  hour : Nat
  minute : Nat
  second : Nat
  nanos : Nat
deriving Repr, DecidableEq

/-- Zero-padding to two digits, as the %m %d %H %M %S format specifiers do. -/
def pad2 (n : Nat) : String :=
  if n < 10 then "0" ++ toString n else toString n

/-- Zero-padding to four digits, as the %Y format specifier does. -/
def pad4 (n : Nat) : String :=
  if n < 10 then "000" ++ toString n
  else if n < 100 then "00" ++ toString n
  else if n < 1000 then "0" ++ toString n
  else toString n

/-- The chrono format string %Y%m%d-%H%M%S used by build_output_path. -/
def formatTimestamp (t : Timestamp) : String :=
  pad4 t.year ++ pad2 t.month ++ pad2 t.day ++ "-" ++
    pad2 t.hour ++ pad2 t.minute ++ pad2 t.second

/-- Environment of output::build_output_path: the dirs crate lookups, the
outcome of create_dir_all, and the current local time. -/
structure PathEnv where
  picturesDir : Option String
  homeDir : Option String
  mkdirOk : Bool
  now : Timestamp
deriving Repr, DecidableEq

/-- Error message of the no-user-directory bail in base_output_dir. -/
def noUserDirectoryMsg : String := "无法定位用户目录"

/-- output::base_output_dir: the pictures directory joined with NCaptura
first, then the home directory joined with Pictures/NCaptura, otherwise the
no-user-directory error. -/
def base_output_dir (env : PathEnv) : Except String String :=
  match env.picturesDir with
  | some p => .ok (p ++ "/NCaptura")
  | none =>
    match env.homeDir with
    | some h => .ok (h ++ "/Pictures/NCaptura")
    | none => .error noUserDirectoryMsg

/-- output::build_output_path: resolves the base directory, creates
base/kindDir, and joins the timestamped file name. The Rust parameter named
after the file-name stem is called pfx here because its original name is a
reserved word in Lean. -/
def build_output_path (env : PathEnv) (kindDir pfx ext : String) :
    Except String String :=
  match base_output_dir env with
  | .error e => .error e
  | .ok baseDir =>
    let outputDir := baseDir ++ "/" ++ kindDir
    if ¬ env.mkdirOk then .error ("无法创建输出目录: " ++ outputDir)
    else .ok (outputDir ++ "/" ++ pfx ++ "-" ++ formatTimestamp env.now ++ "." ++ ext)

/-- Two timestamps within the same wall-clock second: all rendered fields
agree, only the sub-second component may differ. -/
def sameSecond (t u : Timestamp) : Prop :=
  t.year = u.year ∧ t.month = u.month ∧ t.day = u.day ∧
    t.hour = u.hour ∧ t.minute = u.minute ∧ t.second = u.second

/-- Content of the persisted CLI recording state file. garbled models a file
whose text is present but not valid UTF-8 or not valid JSON. -/
inductive FileContent where
  | absent : FileContent
  | garbled : FileContent
  | json : Json → FileContent
deriving Repr

/-- Errno outcome of a kill(2) call that failed; esrch is the tolerated
process-not-found case, other covers every other errno by number. -/
inductive Errno where
  | esrch : Errno
  | other : Nat → Errno
deriving Repr, DecidableEq

/-- Error of the recording module. Each constructor embeds one bail site of
recording.rs or an error propagated into it:
alreadyRecording is the already-in-progress bail of start_recording_detached;
stateMissing is the unreadable-state-file error of read_cli_recording_state;
stateCorrupt covers its parse-failure and missing-pid/missing-output-path
errors; resumeSignalFailed, pauseSignalFailed and interruptSignalFailed are
the SIGCONT/SIGSTOP/SIGINT bails carrying the errno; exitedAbnormally is the
non-zero exit-status bail of stop_recording carrying the status. -/
inductive RecErr where
  | alreadyRecording : RecErr
  | stateMissing : RecErr
  | stateCorrupt : RecErr
  | buildPathFailed : String → RecErr
  | regionFailed : String → RecErr
  | spawnFailed : RecErr
  | writeStateFailed : RecErr
  | resumeSignalFailed : Errno → RecErr
  | pauseSignalFailed : Errno → RecErr
  | interruptSignalFailed : Errno → RecErr
  | tryWaitFailed : RecErr
  | waitFailed : RecErr
  | exitedAbnormally : Int → RecErr
deriving Repr, DecidableEq

/-- state::read_cli_recording_state over the file content: a missing file
fails with the read error, unparsable text or a missing or mistyped pid or
output_path member fails with the corrupt-state errors, otherwise the pid
and output path are returned. -/
def read_cli_recording_state (file : FileContent) : Except RecErr (Nat × String) :=
  match file with
  | .absent => .error .stateMissing
  | .garbled => .error .stateCorrupt
  | .json v =>
    match (v.get ("pid")).bind Json.as_u64 with
    | none => .error .stateCorrupt
    | some pid =>
      match (v.get ("output_path")).bind Json.as_str with
      | none => .error .stateCorrupt
      | some p => .ok (pid, p)

/-- state::clear_cli_recording_state: removes the state file, ignoring any
removal error; afterwards no record is present. -/
def clear_cli_recording_state (_file : FileContent) : FileContent :=
  .absent

/-- The JSON object state::write_cli_recording_state serializes. -/
def recordingStateJson (pid : Nat) (outputPath : String) : Json :=
  Json.obj [("pid", Json.num (Int.ofNat pid)), ("output_path", Json.str outputPath)]

/-- capture::CaptureTarget. -/
inductive CaptureTarget where
  | region : CaptureTarget
  | fullscreen : CaptureTarget
deriving Repr, DecidableEq

/-- CaptureTarget::slug. -/
def CaptureTarget.slug : CaptureTarget → String
  | .region => "region"
  | .fullscreen => "fullscreen"

/-- capture::RecordingSession; the child handle is represented by its pid. -/
structure RecordingSession where
  pid : Nat
  output_path : String
  paused : Bool
deriving Repr, DecidableEq

/-- capture::CliRecordingState. -/
structure CliRecordingState where
  pid : Nat
  output_path : String
deriving Repr, DecidableEq

/-- The tolerated-errno filter every kill(2) call site applies: a missing
process (ESRCH) counts as success, every other errno is kept. Mirrors the
repeated pattern if let Err(err) = kill(..) and err != ESRCH then bail. -/
def killTolerant (res : Option Errno) : Option Errno :=
  match res with
  | some e => if e = Errno.esrch then none else some e
  | none => none

/-- recording::toggle_recording_pause: one kill(2) call whose outcome is
killRes (none = success); ESRCH is tolerated. Returns the reported result
and the session as left by the call: the paused flag is written only after
a tolerated signal outcome, a fatal signal error leaves it untouched. -/
def toggle_recording_pause (killRes : Option Errno) (s : RecordingSession) :
    Except RecErr Bool × RecordingSession :=
  if s.paused then
    match killTolerant killRes with
    | some e => (.error (.resumeSignalFailed e), s)
    | none => (.ok false, RecordingSession.mk s.pid s.output_path false)
  else
    match killTolerant killRes with
    | some e => (.error (.pauseSignalFailed e), s)
    | none => (.ok true, RecordingSession.mk s.pid s.output_path true)

/-- Oracle outcomes for the effect calls of stop_recording, in program order:
the SIGCONT kill (consulted only when paused), try_wait (error, none = still
running, some status = already exited), the SIGINT kill (consulted only when
still running), and the final wait. An exit status is modelled by the integer
code, 0 meaning success. -/
structure StopEnv where
  contRes : Option Errno
  tryWaitRes : Except Unit (Option Int)
  intRes : Option Errno
  waitRes : Except Unit Int
deriving Repr

/-- recording::stop_recording: resumes first when paused (tolerating ESRCH),
skips the interrupt when the child already exited, otherwise sends SIGINT
(tolerating ESRCH), waits for exit, and bails on a non-zero exit status;
only a zero status returns the output path. -/
def stop_recording (env : StopEnv) (s : RecordingSession) : Except RecErr String :=
  let resumeStep : Except RecErr Unit :=
    if s.paused then
      match killTolerant env.contRes with
      | some e => .error (.resumeSignalFailed e)
      | none => .ok ()
    else .ok ()
  match resumeStep with
  | .error e => .error e
  | .ok _ =>
    match env.tryWaitRes with
    | .error _ => .error .tryWaitFailed
    | .ok st =>
      let intStep : Except RecErr Unit :=
        match st with
        | none =>
          match killTolerant env.intRes with
          | some e => .error (.interruptSignalFailed e)
          | none => .ok ()
        | some _ => .ok ()
      match intStep with
      | .error e => .error e
      | .ok _ =>
        match env.waitRes with
        | .error _ => .error .waitFailed
        | .ok status =>
          if status = 0 then .ok s.output_path
          else .error (.exitedAbnormally status)

/-- Oracle outcomes for stop_recording_detached: the persisted file content
and the outcomes of its two kill(2) calls. -/
structure DetachedStopEnv where
  stateFile : FileContent
  contRes : Option Errno
  intRes : Option Errno
deriving Repr

/-- recording::stop_recording_detached: reads the persisted record, sends
SIGCONT then SIGINT to the stored pid tolerating ESRCH; a non-tolerated
errno bails before the clear step, so the record survives such a failure;
only after both signal steps does it clear the record and return the stored
path. The second component is the state file as left by the call. -/
def stop_recording_detached (env : DetachedStopEnv) :
    Except RecErr String × FileContent :=
  match read_cli_recording_state env.stateFile with
  | .error e => (.error e, env.stateFile)
  | .ok (_pid, output_path) =>
    match killTolerant env.contRes with
    | some e => (.error (.resumeSignalFailed e), env.stateFile)
    | none =>
      match killTolerant env.intRes with
      | some e => (.error (.interruptSignalFailed e), env.stateFile)
      | none => (.ok output_path, clear_cli_recording_state env.stateFile)

/-- Oracle outcomes for starting an attached recording: the path-building
environment, the slurp and pactl tool outcomes, the focused-output IPC
outcome, and the spawn result (none = launch failure, some pid = child pid). -/
structure StartEnv where
  pathEnv : PathEnv
  slurp : ToolOutput
  niriFocused : IpcEnv
  pactl : ToolOutput
  spawnPid : Option Nat
deriving Repr

/-- recording::start_recording: builds the output path, resolves -g or -o
arguments by target (a failed focused-output query adds no arguments),
appends the audio flag, spawns wf-recorder. The second component is the
wf-recorder argument list as built when spawning was reached (empty when an
earlier step failed). -/
def start_recording (env : StartEnv) (target : CaptureTarget) (withAudio : Bool) :
    Except RecErr RecordingSession × List String :=
  match build_output_path env.pathEnv ("recordings")
      ("recording-" ++ target.slug) ("mkv") with
  | .error msg => (.error (.buildPathFailed msg), [])
  | .ok output_path =>
    let targetArgsE : Except RecErr (List String) :=
      match target with
      | .region =>
        match pick_region_geometry env.slurp with
        | .error msg => .error (.regionFailed msg)
        | .ok geometry => .ok ["-g", geometry]
      | .fullscreen =>
        match focused_output_name env.niriFocused with
        | .ok output_name => .ok ["-o", output_name]
        | .error _ => .ok []
    match targetArgsE with
    | .error e => (.error e, [])
    | .ok targetArgs =>
      let audioArgs : List String :=
        if withAudio then
          match default_system_mix_audio_device env.pactl with
          | some audio_device => ["--audio=" ++ audio_device]
          | none => ["--audio"]
        else []
      let args := targetArgs ++ audioArgs ++ ["-f", output_path]
      match env.spawnPid with
      | none => (.error .spawnFailed, args)
      | some pid => (.ok (RecordingSession.mk pid output_path false), args)

/-- Observable side effects of start_recording_detached, in order. -/
inductive Event where
  | builtOutputPath : String → Event
  | spawned : Nat → Event
  | wroteState : Nat → String → Event
deriving Repr, DecidableEq

/-- Oracle outcomes for start_recording_detached. writeOk is the outcome of
writing the state file (a failed write is modelled as leaving the previous
content; its possible partial content is not modelled). -/
structure DetachedStartEnv where
  stateFile : FileContent
  pathEnv : PathEnv
  slurp : ToolOutput
  niriFocused : IpcEnv
  pactl : ToolOutput
  spawnPid : Option Nat
  writeOk : Bool
deriving Repr

/-- recording::start_recording_detached: bails with the already-recording
error when the persisted record is readable — before building an output
path or spawning anything; otherwise builds the path and arguments exactly
as start_recording, spawns, persists pid and path, and returns the state.
Returns the result, the state file as left by the call, and the trace of
path-build, spawn and state-write events that occurred. The audio flag only
shapes the spawned argv, which this embedding does not observe for the
detached variant, so the parameter is unused here. -/
def start_recording_detached (env : DetachedStartEnv) (target : CaptureTarget)
    (_withAudio : Bool) :
    Except RecErr CliRecordingState × FileContent × List Event :=
  match read_cli_recording_state env.stateFile with
  | .ok _ => (.error .alreadyRecording, env.stateFile, [])
  | .error _ =>
    match build_output_path env.pathEnv ("recordings")
        ("recording-" ++ target.slug) ("mkv") with
    | .error msg => (.error (.buildPathFailed msg), env.stateFile, [])
    | .ok output_path =>
      let trace0 := [Event.builtOutputPath output_path]
      let targetArgsE : Except RecErr (List String) :=
        match target with
        | .region =>
          match pick_region_geometry env.slurp with
          | .error msg => .error (.regionFailed msg)
          | .ok geometry => .ok ["-g", geometry]
        | .fullscreen =>
          match focused_output_name env.niriFocused with
          | .ok output_name => .ok ["-o", output_name]
          | .error _ => .ok []
      match targetArgsE with
      | .error e => (.error e, env.stateFile, trace0)
      | .ok _targetArgs =>
        match env.spawnPid with
        | none => (.error .spawnFailed, env.stateFile, trace0)
        | some pid =>
          let trace1 := trace0 ++ [Event.spawned pid]
          if env.writeOk then
            (.ok (CliRecordingState.mk pid output_path),
              .json (recordingStateJson pid output_path),
              trace1 ++ [Event.wroteState pid output_path])
          else
            (.error .writeStateFailed, env.stateFile, trace1)

/-- recording::current_cli_recording_state: a non-mutating read. -/
def current_cli_recording_state (file : FileContent) :
    Except RecErr CliRecordingState :=
  match read_cli_recording_state file with
  | .error e => .error e
  | .ok (pid, output_path) => .ok (CliRecordingState.mk pid output_path)

/-- Oracle outcomes for take_screenshot_with_clipboard: the path-building
environment, the slurp outcome, the focused-output IPC outcome, the grim run
outcome, and the outcome of the clipboard copy pipeline (an oracle; the
wl-copy plumbing of copy_image_to_clipboard is outside the claims under
study). -/
structure ScreenshotEnv where
  pathEnv : PathEnv
  slurp : ToolOutput
  niriFocused : IpcEnv
  grim : ToolOutput
  clipboardRes : Except String Unit
deriving Repr

/-- screenshot::take_screenshot_with_clipboard: builds the output path,
resolves -g or -o arguments by target (a failed focused-output query adds no
arguments), runs grim, and optionally copies the file to the clipboard. The
second component is the grim argument list as built when grim was reached
(empty when an earlier step failed). -/
def take_screenshot_with_clipboard (env : ScreenshotEnv) (target : CaptureTarget)
    (copyToClipboard : Bool) : Except String String × List String :=
  match build_output_path env.pathEnv ("screenshots")
      ("screenshot-" ++ target.slug) ("png") with
  | .error msg => (.error msg, [])
  | .ok output_path =>
    let targetArgsE : Except String (List String) :=
      match target with
      | .region =>
        match pick_region_geometry env.slurp with
        | .error msg => .error msg
        | .ok geometry => .ok ["-g", geometry]
      | .fullscreen =>
        match focused_output_name env.niriFocused with
        | .ok output_name => .ok ["-o", output_name]
        | .error _ => .ok []
    match targetArgsE with
    | .error msg => (.error msg, [])
    | .ok targetArgs =>
      let args := targetArgs ++ [output_path]
      match run_command env.grim ("截图失败") with
      | .error msg => (.error msg, args)
      | .ok _ =>
        if copyToClipboard then
          match env.clipboardRes with
          | .error msg => (.error msg, args)
          | .ok _ => (.ok output_path, args)
        else (.ok output_path, args)

/-! Concrete sample inputs used to instantiate the theorems below. -/

/-- Sample window-list JSON from the spec scenario: one entry without title,
one focused entry titled Term. -/
def c4Items : List Json :=
  [Json.obj [("id", Json.num 1), ("workspace_id", Json.num 2),
    ("is_focused", Json.bool false)],
   Json.obj [("id", Json.num 2), ("title", Json.str "Term"),
    ("workspace_id", Json.num 1), ("is_focused", Json.bool true)]]

/-- A successful window-list IPC round carrying c4Items. -/
def c4Env : IpcEnv := IpcEnv.mk true true true (some (Json.arr c4Items))

/-- The parsed form of c4Items, in input order. -/
def c4Windows : List WindowInfo :=
  [WindowInfo.mk 1 "(untitled)" "unknown" 2 false,
   WindowInfo.mk 2 "Term" "unknown" 1 true]

/-- A window entry without an id member. -/
def c7NoId : Json := Json.obj [("title", Json.str "x")]

/-- A window entry with only an id member. -/
def c7IdOnly : Json := Json.obj [("id", Json.num 5)]

/-- The WindowInfo produced for c7IdOnly: every field defaulted. -/
def c7Win : WindowInfo := WindowInfo.mk 5 "(untitled)" "unknown" 0 false

/-- A slurp run that exited non-zero. -/
def c5CancelRun : ToolOutput := ToolOutput.mk true false (some "") "" ""

/-- A slurp run that exited successfully with whitespace-only stdout. -/
def c5EmptyRun : ToolOutput := ToolOutput.mk true true (some "  ") "" ""

/-- A slurp run that exited successfully with a geometry on stdout. -/
def c5OkRun : ToolOutput := ToolOutput.mk true true (some " 10,20 300x200 ") "" ""

/-- A focused-output response in the flat shape. -/
def c8Flat : Json := Json.obj [("name", Json.str "DP-1")]

/-- A focused-output response in the nested result-envelope shape. -/
def c8Nested : Json :=
  Json.obj [("Ok", Json.obj
    [("FocusedOutput", Json.obj [("name", Json.str "HDMI-1")])])]

/-- A focused-output response where the name member is not a string. -/
def c8Neither : Json := Json.obj [("name", Json.num 3)]

/-- A successful focused-output IPC round carrying the given value. -/
def c8EnvOf (v : Json) : IpcEnv := IpcEnv.mk true true true (some v)

/-- Two wall-clock instants within the same second (different nanos). -/
def c9Now1 : Timestamp := Timestamp.mk 2026 10 12 13 14 15 111

/-- The second instant of the same wall-clock second as c9Now1. -/
def c9Now2 : Timestamp := Timestamp.mk 2026 10 12 13 14 15 999

/-- A path environment with a pictures directory, at c9Now1. -/
def c9Env1 : PathEnv := PathEnv.mk (some "/pics") (some "/home/u") true c9Now1

/-- The same environment at c9Now2. -/
def c9Env2 : PathEnv := PathEnv.mk (some "/pics") (some "/home/u") true c9Now2

/-- A path environment with only a home directory. -/
def c9EnvHome : PathEnv := PathEnv.mk none (some "/home/u") true c9Now1

/-- A path environment with neither directory source. -/
def c9EnvNone : PathEnv := PathEnv.mk none none true c9Now1

/-- A not-paused recording session. -/
def c6S : RecordingSession := RecordingSession.mk 5 "/tmp/o.mkv" false

/-- A not-paused session whose recorder will exit abnormally. -/
def c3S : RecordingSession := RecordingSession.mk 42 "/tmp/r.mkv" false

/-- Effect outcomes where the child already exited with status 1. -/
def c3Env : StopEnv := StopEnv.mk none (.ok (some 1)) none (.ok 1)

/-- Effect outcomes where the child already exited with status 2 and wait
reports status 3. -/
def c3Env2 : StopEnv := StopEnv.mk none (.ok (some 2)) none (.ok 3)

/-- Effect outcomes where the child already exited with status 0. -/
def c3Env0 : StopEnv := StopEnv.mk none (.ok (some 0)) none (.ok 0)

/-- A readable persisted record with pid 7. -/
def c1State : FileContent :=
  FileContent.json (Json.obj
    [("pid", Json.num 7), ("output_path", Json.str "/tmp/a.mkv")])

/-- A detached-start environment in which a readable record already exists
and every later step would succeed if reached. -/
def c1Env : DetachedStartEnv :=
  DetachedStartEnv.mk c1State
    (PathEnv.mk (some "/pics") (some "/h") true (Timestamp.mk 2026 1 2 3 4 5 0))
    (ToolOutput.mk true true (some "0,0 10x10") "" "")
    (IpcEnv.mk true true true (some (Json.obj [("name", Json.str "DP-1")])))
    (ToolOutput.mk true true (some "sink") "" "")
    (some 99) true

/-- A readable persisted record with pid 8. -/
def c2State : FileContent :=
  FileContent.json (Json.obj
    [("pid", Json.num 8), ("output_path", Json.str "/tmp/b.mkv")])

/-- A detached-stop environment whose SIGCONT delivery fails with EPERM. -/
def c2Env : DetachedStopEnv := DetachedStopEnv.mk c2State (some (Errno.other 1)) none

/-- A failed focused-output IPC round (non-zero exit). -/
def c10Niri : IpcEnv := IpcEnv.mk true false true none

/-- A path environment for the C10 samples. -/
def c10Path : PathEnv :=
  PathEnv.mk (some "/pics") none true (Timestamp.mk 2026 10 12 1 2 3 0)

/-- A screenshot environment whose focused-output query fails and whose
remaining steps succeed. -/
def c10SEnv : ScreenshotEnv :=
  ScreenshotEnv.mk c10Path (ToolOutput.mk true true (some "g") "" "")
    c10Niri (ToolOutput.mk true true none "" "") (.ok ())

/-- A recording-start environment whose focused-output query fails and whose
remaining steps succeed. -/
def c10REnv : StartEnv :=
  StartEnv.mk c10Path (ToolOutput.mk true true (some "g") "" "")
    c10Niri (ToolOutput.mk true true (some "snk") "" "") (some 77)

/-! Theorems. -/

/-- Transitivity of the window comparison, inherited from the lexicographic
order on the composite key. -/
theorem windowLe_trans (a b c : WindowInfo) (h1 : windowLe a b = true)
    (h2 : windowLe b c = true) : windowLe a c = true := by
  simp only [windowLe, decide_eq_true_eq] at h1 h2 ⊢
  exact le_trans h1 h2

/-- Totality of the window comparison. -/
theorem windowLe_total (a b : WindowInfo) :
    (windowLe a b || windowLe b a) = true := by
  simp only [windowLe, Bool.or_eq_true, decide_eq_true_eq]
  exact le_total _ _

/-- C4: for every input, the window list produced by the sort step is a
permutation of its input that is sorted by the composite key — focused
window first (negated is_focused ascending), then ascending workspace id,
then ascending title — and on a successful IPC round list_windows returns
exactly the sorted parsed entries. -/
theorem list_windows_sorted_spec (env : IpcEnv) (ws : List WindowInfo) :
    ((sortWindows ws).Pairwise fun a b => windowKey a ≤ windowKey b) ∧
    (sortWindows ws).Perm ws ∧
    (env.launched = true → env.exitOk = true → env.utf8Ok = true →
      ∀ items, env.json = some (Json.arr items) →
        list_windows env = .ok (sortWindows (parseWindows items))) := by
  refine ⟨?_, ?_, ?_⟩
  · have hs := List.sorted_mergeSort
      (fun a b c => windowLe_trans a b c) windowLe_total ws
    exact hs.imp fun h => by
      simpa only [windowLe, decide_eq_true_eq] using h
  · exact List.mergeSort_perm ws windowLe
  · intro h1 h2 h3 items hj
    simp [list_windows, h1, h2, h3, hj]

/-- C4 witness: the spec scenario instance — two entries, the focused Term
window sorting first. -/
theorem list_windows_sorted_spec_witness :
    ((sortWindows c4Windows).Pairwise fun a b => windowKey a ≤ windowKey b) ∧
    (sortWindows c4Windows).Perm c4Windows ∧
    list_windows c4Env = .ok (sortWindows (parseWindows c4Items)) := by
  obtain ⟨h1, h2, h3⟩ := list_windows_sorted_spec c4Env c4Windows
  exact ⟨h1, h2, h3 rfl rfl rfl c4Items rfl⟩

/-- C7: window entries lacking an id member are skipped entirely, and
retained entries default a missing title to "(untitled)", a missing app_id
to "unknown", a missing workspace_id to 0 and a missing is_focused to
false. -/
theorem parse_window_defaults (item : Json) (rest : List Json) :
    (item.get ("id") = none →
      parseWindow item = none ∧ parseWindows (item :: rest) = parseWindows rest) ∧
    (∀ w, parseWindow item = some w →
      (item.get ("title") = none → w.title = "(untitled)") ∧
      (item.get ("app_id") = none → w.app_id = "unknown") ∧
      (item.get ("workspace_id") = none → w.workspace_id = 0) ∧
      (item.get ("is_focused") = none → w.is_focused = false)) := by
  constructor
  · intro hid
    have hpw : parseWindow item = none := by
      unfold parseWindow
      rw [hid]
      rfl
    refine ⟨hpw, ?_⟩
    simp [parseWindows, List.filterMap_cons, hpw]
  · intro w hw
    unfold parseWindow at hw
    rcases hid : (item.get ("id")).bind Json.as_u64 with _ | wid
    · rw [hid] at hw
      exact absurd hw (by simp)
    · rw [hid] at hw
      simp only [Option.some.injEq] at hw
      subst hw
      refine ⟨?_, ?_, ?_, ?_⟩ <;> intro hmiss <;> simp [hmiss]

/-- C7 witness: an entry without id is dropped; an entry with only an id
gets every documented default. -/
theorem parse_window_defaults_witness :
    (parseWindow c7NoId = none ∧ parseWindows [c7NoId] = parseWindows []) ∧
    parseWindow c7IdOnly = some c7Win ∧
    c7Win.title = "(untitled)" ∧ c7Win.app_id = "unknown" ∧
    c7Win.workspace_id = 0 ∧ c7Win.is_focused = false := by
  have h1 := (parse_window_defaults c7NoId []).1 rfl
  have h2 := (parse_window_defaults c7IdOnly []).2 c7Win rfl
  exact ⟨h1, rfl, h2.1 rfl, h2.2.1 rfl, h2.2.2.1 rfl, h2.2.2.2 rfl⟩

/-- C5 counterexample: a successful slurp exit with whitespace-only stdout
bails with the empty-geometry message, which is a different error from the
cancellation message produced by a non-zero exit — the two cases are
distinct errors, refuting the claim that both yield the same
SelectionCancelled outcome. -/
theorem pick_region_empty_not_cancelled :
    pick_region_geometry c5EmptyRun = .error emptyGeometryMsg ∧
    pick_region_geometry c5CancelRun = .error selectionCancelledMsg ∧
    emptyGeometryMsg ≠ selectionCancelledMsg := by
  refine ⟨rfl, rfl, by decide⟩

/-- C5 amended: a non-zero slurp exit yields the cancellation error; a
successful exit with empty or whitespace-only stdout yields the distinct
empty-geometry error; otherwise the trimmed stdout is returned as the
geometry token. -/
theorem pick_region_spec (o : ToolOutput) :
    (o.launched = true → o.exitOk = false →
      pick_region_geometry o = .error selectionCancelledMsg) ∧
    (∀ s, o.launched = true → o.exitOk = true → o.stdoutUtf8 = some s →
      ((trimString s).data.isEmpty = true →
        pick_region_geometry o = .error emptyGeometryMsg) ∧
      ((trimString s).data.isEmpty = false →
        pick_region_geometry o = .ok (trimString s))) := by
  constructor
  · intro hl he
    simp [pick_region_geometry, hl, he]
  · intro s hl he hs
    constructor <;> intro ht <;> simp [pick_region_geometry, hl, he, hs, ht]

/-- C5 witness: the three outcomes at concrete slurp runs. -/
theorem pick_region_spec_witness :
    pick_region_geometry c5CancelRun = .error selectionCancelledMsg ∧
    pick_region_geometry c5EmptyRun = .error emptyGeometryMsg ∧
    pick_region_geometry c5OkRun = .ok (trimString " 10,20 300x200 ") := by
  refine ⟨(pick_region_spec c5CancelRun).1 rfl rfl, ?_, ?_⟩
  · exact ((pick_region_spec c5EmptyRun).2 "  " rfl rfl rfl).1 rfl
  · exact ((pick_region_spec c5OkRun).2 " 10,20 300x200 " rfl rfl rfl).2 rfl

/-- C8: focused_output_name takes the name of the flat shape first, then the
nested Ok.FocusedOutput.name path, and fails with the not-found error when
neither shape yields a string name. -/
theorem focused_output_name_spec (env : IpcEnv) (v : Json) (n : String)
    (hl : env.launched = true) (he : env.exitOk = true) (hu : env.utf8Ok = true)
    (hj : env.json = some v) :
    ((v.get ("name")).bind Json.as_str = some n →
      focused_output_name env = .ok n) ∧
    ((v.get ("name")).bind Json.as_str = none →
      v.pointerOkFocusedOutputName.bind Json.as_str = some n →
      focused_output_name env = .ok n) ∧
    ((v.get ("name")).bind Json.as_str = none →
      v.pointerOkFocusedOutputName.bind Json.as_str = none →
      focused_output_name env = .error outputNameNotFoundMsg) := by
  refine ⟨?_, ?_, ?_⟩
  · intro h1
    simp [focused_output_name, hl, he, hu, hj, h1]
  · intro h1 h2
    simp [focused_output_name, hl, he, hu, hj, h1, h2]
  · intro h1 h2
    simp [focused_output_name, hl, he, hu, hj, h1, h2]

/-- C8 witness: the flat, nested and neither shapes at concrete values. -/
theorem focused_output_name_spec_witness :
    focused_output_name (c8EnvOf c8Flat) = .ok "DP-1" ∧
    focused_output_name (c8EnvOf c8Nested) = .ok "HDMI-1" ∧
    focused_output_name (c8EnvOf c8Neither) = .error outputNameNotFoundMsg := by
  refine ⟨?_, ?_, ?_⟩
  · exact (focused_output_name_spec (c8EnvOf c8Flat) c8Flat "DP-1"
      rfl rfl rfl rfl).1 rfl
  · exact (focused_output_name_spec (c8EnvOf c8Nested) c8Nested "HDMI-1"
      rfl rfl rfl rfl).2.1 rfl rfl
  · exact (focused_output_name_spec (c8EnvOf c8Neither) c8Neither "x"
      rfl rfl rfl rfl).2.2 rfl rfl

/-- C9: the base directory is resolved by trying the pictures directory
joined with NCaptura, then the home directory joined with Pictures/NCaptura,
failing with the no-user-directory error when neither exists; the produced
path is exactly base/kindDir/pfx-timestamp.ext with the local time rendered
at whole-second resolution, so two builds with the same directories, stem and
wall-clock second produce identical paths. -/
theorem build_output_path_spec (env env2 : PathEnv) (kindDir pfx ext : String) :
    (∀ p, env.picturesDir = some p →
      base_output_dir env = .ok (p ++ "/NCaptura")) ∧
    (∀ h, env.picturesDir = none → env.homeDir = some h →
      base_output_dir env = .ok (h ++ "/Pictures/NCaptura")) ∧
    (env.picturesDir = none → env.homeDir = none →
      build_output_path env kindDir pfx ext = .error noUserDirectoryMsg) ∧
    (∀ b, base_output_dir env = .ok b → env.mkdirOk = true →
      build_output_path env kindDir pfx ext =
        .ok (b ++ "/" ++ kindDir ++ "/" ++ pfx ++ "-" ++
          formatTimestamp env.now ++ "." ++ ext)) ∧
    (env.picturesDir = env2.picturesDir → env.homeDir = env2.homeDir →
      env.mkdirOk = env2.mkdirOk → sameSecond env.now env2.now →
      build_output_path env kindDir pfx ext =
        build_output_path env2 kindDir pfx ext) := by
  refine ⟨?_, ?_, ?_, ?_, ?_⟩
  · intro p hp
    simp [base_output_dir, hp]
  · intro h hp hh
    simp [base_output_dir, hp, hh]
  · intro hp hh
    simp [build_output_path, base_output_dir, hp, hh]
  · intro b hb hm
    simp [build_output_path, hb, hm]
  · intro h1 h2 h3 hsec
    obtain ⟨e1, e2, e3, e4, e5, e6⟩ := hsec
    have hts : formatTimestamp env.now = formatTimestamp env2.now := by
      unfold formatTimestamp
      rw [e1, e2, e3, e4, e5, e6]
    have hbase : base_output_dir env = base_output_dir env2 := by
      unfold base_output_dir
      rw [h1, h2]
    unfold build_output_path
    rw [hbase, h3, hts]

/-- C9 witness: the resolution order, exact file name and same-second
collision at concrete environments differing only in nanoseconds. -/
theorem build_output_path_spec_witness :
    base_output_dir c9Env1 = .ok ("/pics" ++ "/NCaptura") ∧
    base_output_dir c9EnvHome = .ok ("/home/u" ++ "/Pictures/NCaptura") ∧
    build_output_path c9EnvNone ("recordings") ("recording-fullscreen") ("mkv") =
      .error noUserDirectoryMsg ∧
    build_output_path c9Env1 ("recordings") ("recording-fullscreen") ("mkv") =
      .ok ("/pics/NCaptura" ++ "/" ++ "recordings" ++ "/" ++
        "recording-fullscreen" ++ "-" ++ formatTimestamp c9Now1 ++ "." ++ "mkv") ∧
    build_output_path c9Env1 ("recordings") ("recording-fullscreen") ("mkv") =
      build_output_path c9Env2 ("recordings") ("recording-fullscreen") ("mkv") := by
  refine ⟨?_, ?_, ?_, ?_, ?_⟩
  · exact (build_output_path_spec c9Env1 c9Env2 ("recordings")
      ("recording-fullscreen") ("mkv")).1 "/pics" rfl
  · exact (build_output_path_spec c9EnvHome c9EnvHome ("recordings")
      ("recording-fullscreen") ("mkv")).2.1 "/home/u" rfl rfl
  · exact (build_output_path_spec c9EnvNone c9EnvNone ("recordings")
      ("recording-fullscreen") ("mkv")).2.2.1 rfl rfl
  · exact (build_output_path_spec c9Env1 c9Env2 ("recordings")
      ("recording-fullscreen") ("mkv")).2.2.2.1 "/pics/NCaptura" rfl rfl
  · exact (build_output_path_spec c9Env1 c9Env2 ("recordings")
      ("recording-fullscreen") ("mkv")).2.2.2.2 rfl rfl rfl
      ⟨rfl, rfl, rfl, rfl, rfl, rfl⟩

/-- C6: a tolerated signal outcome (success or ESRCH) transitions the paused
flag and reports the new state, so a missing process does not change the
reported success; any other errno is fatal with the matching signal-delivery
error and leaves the session unchanged; pause followed by resume under
tolerated outcomes returns the session to the not-paused state. -/
theorem toggle_pause_spec (s : RecordingSession) (k : Option Errno) :
    (killTolerant k = none →
      toggle_recording_pause k s =
        (.ok (!s.paused), RecordingSession.mk s.pid s.output_path (!s.paused))) ∧
    (∀ e, killTolerant k = some e →
      toggle_recording_pause k s =
        (.error (if s.paused then RecErr.resumeSignalFailed e
          else RecErr.pauseSignalFailed e), s)) ∧
    (∀ k2, s.paused = false → killTolerant k = none → killTolerant k2 = none →
      ((toggle_recording_pause k2 (toggle_recording_pause k s).2).2).paused
        = false) := by
  obtain ⟨pid, path, paused⟩ := s
  refine ⟨?_, ?_, ?_⟩
  · intro hk
    cases paused <;> simp [toggle_recording_pause, hk]
  · intro e hk
    cases paused <;> simp [toggle_recording_pause, hk]
  · intro k2 hp hk hk2
    cases paused
    · simp [toggle_recording_pause, hk, hk2]
    · simp at hp

/-- C6 witness: ESRCH on pause still transitions, a non-tolerated errno is
fatal and leaves the session unchanged, and pause then resume restores the
not-paused state. -/
theorem toggle_pause_spec_witness :
    toggle_recording_pause (some Errno.esrch) c6S =
      (.ok true, RecordingSession.mk 5 "/tmp/o.mkv" true) ∧
    toggle_recording_pause (some (Errno.other 13)) c6S =
      (.error (RecErr.pauseSignalFailed (Errno.other 13)), c6S) ∧
    ((toggle_recording_pause none
      (toggle_recording_pause (some Errno.esrch) c6S).2).2).paused = false := by
  obtain ⟨h1, h2, h3⟩ := toggle_pause_spec c6S (some Errno.esrch)
  obtain ⟨g1, g2, g3⟩ := toggle_pause_spec c6S (some (Errno.other 13))
  exact ⟨h1 rfl, g2 (Errno.other 13) rfl, h3 none rfl rfl rfl⟩

/-- C3 counterexample: with the recorder exiting with status 1,
stop_recording fails with the abnormal-exit error and does not return the
output path, refuting the claim that the path is still returned. -/
theorem stop_recording_no_path_on_abnormal_exit :
    stop_recording c3Env c3S = .error (RecErr.exitedAbnormally 1) ∧
    stop_recording c3Env c3S ≠ .ok c3S.output_path := by
  have h1 : stop_recording c3Env c3S = .error (RecErr.exitedAbnormally 1) := rfl
  exact ⟨h1, by simp [h1]⟩

/-- C3 amended: after waiting for the child, a non-zero exit status makes
stop_recording fail with the abnormal-exit error carrying that status; the
output path is returned only for a zero status. -/
theorem stop_recording_exit_status_spec (env : StopEnv) (s : RecordingSession)
    (st : Option Int) (status : Int)
    (hcont : killTolerant env.contRes = none)
    (htw : env.tryWaitRes = .ok st)
    (hint : st = none → killTolerant env.intRes = none)
    (hw : env.waitRes = .ok status) :
    (status ≠ 0 → stop_recording env s = .error (.exitedAbnormally status)) ∧
    (status = 0 → stop_recording env s = .ok s.output_path) := by
  cases st with
  | none =>
    have hi := hint rfl
    constructor <;> intro h0 <;>
      simp [stop_recording, hcont, htw, hi, hw, h0]
  | some c =>
    constructor <;> intro h0 <;>
      simp [stop_recording, hcont, htw, hw, h0]

/-- C3 witness: abnormal status 3 fails with the carried status; status 0
returns the path. -/
theorem stop_recording_exit_status_spec_witness :
    stop_recording c3Env2 c3S = .error (RecErr.exitedAbnormally 3) ∧
    stop_recording c3Env0 c3S = .ok c3S.output_path := by
  constructor
  · exact (stop_recording_exit_status_spec c3Env2 c3S (some 2) 3 rfl rfl
      (fun h => nomatch h) rfl).1 (by decide)
  · exact (stop_recording_exit_status_spec c3Env0 c3S (some 0) 0 rfl rfl
      (fun h => nomatch h) rfl).2 rfl

/-- C1: starting a detached recording while a readable persisted record
exists fails with the already-recording error, leaves the record unchanged
(no new pid written), and performs no side effect at all — no output path is
built and no recorder is spawned (empty event trace). -/
theorem start_detached_already_recording (env : DetachedStartEnv)
    (target : CaptureTarget) (withAudio : Bool) (pid : Nat) (path : String)
    (h : read_cli_recording_state env.stateFile = .ok (pid, path)) :
    start_recording_detached env target withAudio =
      (.error .alreadyRecording, env.stateFile, ([] : List Event)) := by
  unfold start_recording_detached
  rw [h]

/-- C1 witness: the readable-record environment at concrete values. -/
theorem start_detached_already_recording_witness :
    start_recording_detached c1Env CaptureTarget.fullscreen false =
      (.error .alreadyRecording, c1Env.stateFile, ([] : List Event)) :=
  start_detached_already_recording c1Env CaptureTarget.fullscreen false
    7 "/tmp/a.mkv" rfl

/-- C2 counterexample: with a readable record and SIGCONT delivery failing
with a non-tolerated errno, stop_recording_detached fails before the clear
step — the record is left in place, not cleared, and no path is returned —
refuting the claimed unconditional clearing. -/
theorem stop_detached_record_kept_on_signal_error :
    stop_recording_detached c2Env =
      (.error (RecErr.resumeSignalFailed (Errno.other 1)), c2State) ∧
    c2State ≠ FileContent.absent := by
  exact ⟨rfl, fun h => FileContent.noConfusion h⟩

/-- C2 amended: StateMissing when no record exists and StateCorrupt when it
is malformed, each leaving the file untouched; with a readable record the
record is cleared and the stored path returned exactly when both signal
deliveries succeed or fail only with ESRCH, while a non-tolerated errno on
either signal fails with the matching signal-delivery error and leaves the
record in place. -/
theorem stop_detached_spec (env : DetachedStopEnv) (pid : Nat) (path : String) :
    (read_cli_recording_state env.stateFile = .error .stateMissing →
      stop_recording_detached env = (.error .stateMissing, env.stateFile)) ∧
    (read_cli_recording_state env.stateFile = .error .stateCorrupt →
      stop_recording_detached env = (.error .stateCorrupt, env.stateFile)) ∧
    (read_cli_recording_state env.stateFile = .ok (pid, path) →
      (killTolerant env.contRes = none → killTolerant env.intRes = none →
        stop_recording_detached env = (.ok path, FileContent.absent)) ∧
      (∀ e, killTolerant env.contRes = some e →
        stop_recording_detached env =
          (.error (.resumeSignalFailed e), env.stateFile)) ∧
      (∀ e, killTolerant env.contRes = none → killTolerant env.intRes = some e →
        stop_recording_detached env =
          (.error (.interruptSignalFailed e), env.stateFile))) := by
  refine ⟨?_, ?_, ?_⟩
  · intro h
    simp [stop_recording_detached, h]
  · intro h
    simp [stop_recording_detached, h]
  · intro h
    refine ⟨?_, ?_, ?_⟩
    · intro hc hi
      simp [stop_recording_detached, h, hc, hi, clear_cli_recording_state]
    · intro e hc
      simp [stop_recording_detached, h, hc]
    · intro e hc hi
      simp [stop_recording_detached, h, hc, hi]

/-- C2 witness: the missing, corrupt and cleared outcomes at concrete
environments (ESRCH on SIGCONT still clears). -/
theorem stop_detached_spec_witness :
    stop_recording_detached (DetachedStopEnv.mk FileContent.absent none none) =
      (.error RecErr.stateMissing, FileContent.absent) ∧
    stop_recording_detached (DetachedStopEnv.mk FileContent.garbled none none) =
      (.error RecErr.stateCorrupt, FileContent.garbled) ∧
    stop_recording_detached (DetachedStopEnv.mk c2State (some Errno.esrch) none) =
      (.ok "/tmp/b.mkv", FileContent.absent) := by
  refine ⟨?_, ?_, ?_⟩
  · exact (stop_detached_spec
      (DetachedStopEnv.mk FileContent.absent none none) 0 "").1 rfl
  · exact (stop_detached_spec
      (DetachedStopEnv.mk FileContent.garbled none none) 0 "").2.1 rfl
  · exact ((stop_detached_spec
      (DetachedStopEnv.mk c2State (some Errno.esrch) none) 8 "/tmp/b.mkv").2.2
        rfl).1 rfl rfl

/-- C10: for the fullscreen target, a failed focused-output query is
tolerated: the capture and recorder tools are invoked without the -o flag
(the screenshot argument list is just the path, the recorder list is just
the audio flags and -f path) and the operations succeed whenever the
remaining steps succeed. -/
theorem fullscreen_tolerates_output_query_failure
    (senv : ScreenshotEnv) (renv : StartEnv) (withAudio copyToClipboard : Bool)
    (e1 e2 p q : String)
    (hs : focused_output_name senv.niriFocused = .error e1)
    (hr : focused_output_name renv.niriFocused = .error e2)
    (hp : build_output_path senv.pathEnv ("screenshots")
      ("screenshot-" ++ CaptureTarget.fullscreen.slug) ("png") = .ok p)
    (hq : build_output_path renv.pathEnv ("recordings")
      ("recording-" ++ CaptureTarget.fullscreen.slug) ("mkv") = .ok q) :
    ((take_screenshot_with_clipboard senv .fullscreen copyToClipboard).2 = [p]) ∧
    (senv.grim.launched = true → senv.grim.exitOk = true →
      (copyToClipboard = true → senv.clipboardRes = .ok ()) →
      (take_screenshot_with_clipboard senv .fullscreen copyToClipboard).1 =
        .ok p) ∧
    ((start_recording renv .fullscreen withAudio).2 =
      (if withAudio then
        match default_system_mix_audio_device renv.pactl with
        | some d => ["--audio=" ++ d]
        | none => ["--audio"]
      else []) ++ ["-f", q]) ∧
    (∀ pid, renv.spawnPid = some pid →
      (start_recording renv .fullscreen withAudio).1 =
        .ok (RecordingSession.mk pid q false)) := by
  have hsc : take_screenshot_with_clipboard senv CaptureTarget.fullscreen
      copyToClipboard =
      (match run_command senv.grim ("截图失败") with
       | .error msg => (.error msg, [p])
       | .ok _ =>
         if copyToClipboard then
           match senv.clipboardRes with
           | .error msg => (.error msg, [p])
           | .ok _ => (.ok p, [p])
         else (.ok p, [p])) := by
    simp [take_screenshot_with_clipboard, hp, hs]
  have hrec : start_recording renv CaptureTarget.fullscreen withAudio =
      (let audioArgs : List String :=
        if withAudio then
          match default_system_mix_audio_device renv.pactl with
          | some d => ["--audio=" ++ d]
          | none => ["--audio"]
        else []
      let args := audioArgs ++ ["-f", q]
      match renv.spawnPid with
      | none => (.error .spawnFailed, args)
      | some pid => (.ok (RecordingSession.mk pid q false), args)) := by
    simp [start_recording, hq, hr]
  refine ⟨?_, ?_, ?_, ?_⟩
  · rw [hsc]
    cases h1 : run_command senv.grim ("截图失败") with
    | error msg => rfl
    | ok u =>
      cases copyToClipboard with
      | false => rfl
      | true =>
        cases h2 : senv.clipboardRes with
        | error msg => rfl
        | ok u2 => rfl
  · intro hgl hge hcb
    have hrc : run_command senv.grim ("截图失败") = .ok () := by
      simp [run_command, hgl, hge]
    rw [hsc, hrc]
    cases copyToClipboard with
    | false => rfl
    | true =>
      rw [hcb rfl]
      rfl
  · rw [hrec]
    cases renv.spawnPid <;> rfl
  · intro pid hpid
    rw [hrec]
    rw [hpid]

/-- C10 witness: with a failing focused-output query, the screenshot runs
grim with only the output path, the recorder gets only -f and the path, and
both operations succeed. -/
theorem fullscreen_tolerates_output_query_failure_witness :
    (take_screenshot_with_clipboard c10SEnv .fullscreen true).2 =
      ["/pics/NCaptura/screenshots/screenshot-fullscreen-20261012-010203.png"] ∧
    (take_screenshot_with_clipboard c10SEnv .fullscreen true).1 =
      .ok "/pics/NCaptura/screenshots/screenshot-fullscreen-20261012-010203.png" ∧
    (start_recording c10REnv .fullscreen false).2 =
      ["-f", "/pics/NCaptura/recordings/recording-fullscreen-20261012-010203.mkv"] ∧
    (start_recording c10REnv .fullscreen false).1 =
      .ok (RecordingSession.mk 77
        "/pics/NCaptura/recordings/recording-fullscreen-20261012-010203.mkv"
        false) := by
  obtain ⟨h1, h2, h3, h4⟩ := fullscreen_tolerates_output_query_failure
    c10SEnv c10REnv false true
    "niri msg focused-output 执行失败" "niri msg focused-output 执行失败"
    "/pics/NCaptura/screenshots/screenshot-fullscreen-20261012-010203.png"
    "/pics/NCaptura/recordings/recording-fullscreen-20261012-010203.mkv"
    rfl rfl rfl rfl
  refine ⟨h1, h2 rfl rfl (fun _ => rfl), ?_, h4 77 rfl⟩
  simpa using h3

end NCaptura
